import Mathlib

/-!
Verification of `flair/models/pairwise_classification_model.py`
(`TextPairClassifier`), a pairwise text classification head.

The classifier itself (constructor, `_get_data_points_from_sentence`,
`_get_embedding_for_data_point`, `_get_state_dict`,
`_init_model_with_state_dict`) is embedded from the source file.  Its
external collaborators (`flair.data.Sentence`, `flair.embeddings`
document-embedding providers, and the generic `DefaultClassifier` base)
are not part of the source tree and are modelled from the specification.
-/

namespace PairwiseClassification

/-- Modelled from the spec: a TextUnit (`flair.data.Sentence`, not in the
source tree) is an ordered sequence of tokens with attachable named
embedding vectors.  `text` is the unit's (de)tokenized text,
`use_tokenizer` records whether the constructor was asked to re-tokenize
(`Sentence(text, use_tokenizer=False)` marks a pre-tokenized unit), and
`embeddings` is the name-indexed store of vectors that embedding
providers attach in place.  Vector entries are opaque numbers, modelled
as integers. -/
structure Sentence where
  text : String
  use_tokenizer : Bool
  embeddings : List (String × List Int)
deriving DecidableEq, Repr

/-- Modelled from the spec: `Sentence.to_tokenized_string` returns the
detokenized text of the unit's token sequence; tokenization itself is an
external concern, so the unit's token sequence is represented by that
text. -/
def Sentence.to_tokenized_string (s : Sentence) : String :=
  s.text

/-- Modelled from the spec: `get_embedding(names)` fetches the unit's
embedding vectors whose names are among `names` and concatenates them
along the feature axis. -/
def Sentence.get_embedding (s : Sentence) (names : List String) : List Int :=
  ((s.embeddings.filter (fun q => names.contains q.1)).map Prod.snd).flatten

/-- A TextPair: an ordered pair of text units treated as one
classification example (`flair.data.TextPair`). -/
structure TextPair where
  first : Sentence
  second : Sentence
deriving DecidableEq, Repr

/-- Modelled from the spec: the external document-embedding provider
(`flair.embeddings.DocumentEmbeddings`).  `embedding_length` is the
length of the vector it produces per unit, `names` is what `get_names()`
returns, and `attach` gives the named vectors the provider attaches to a
unit with a given text when `embed` is invoked.  `is_transformer` records
whether the provider is a `TransformerDocumentEmbeddings`, and
`sep_token` its tokenizer's declared separator token (`none` when the
tokenizer declares none). -/
structure DocumentEmbeddings where
  embedding_length : Nat
  names : List String
  attach : String → List (String × List Int)
  is_transformer : Bool
  sep_token : Option String

/-- Modelled from the spec: `embed` mutates its input unit in place,
attaching the provider's named vectors (overwriting vectors previously
stored under the provider's names, as a name-keyed store does). -/
def DocumentEmbeddings.embed (e : DocumentEmbeddings) (s : Sentence) : Sentence :=
  { s with
    embeddings :=
      (s.embeddings.filter (fun q => !(e.names.contains q.1))) ++ e.attach s.text }

/-- Modelled from the spec: a batched `embed` call on several units
attaches each unit's vectors; batching is a performance optimization,
not a semantic one. -/
def DocumentEmbeddings.embedBatch (e : DocumentEmbeddings) (ss : List Sentence) : List Sentence :=
  ss.map e.embed

/-- Well-formedness of a provider, from the spec: on every unit it
attaches exactly the named vectors announced by `get_names()`, and the
vectors it attaches have total length `embedding_length`. -/
def DocumentEmbeddings.WF (e : DocumentEmbeddings) : Prop :=
  ∀ t : String,
    (e.attach t).map Prod.fst = e.names ∧
    (((e.attach t).map Prod.snd).flatten).length = e.embedding_length

/-- Python truthiness of an optional separator-token string:
`if tokenizer.sep_token:` is taken when the token is neither `None` nor
empty. -/
def sepTruthy : Option String → Bool
  | Option.none => false
  | Option.some t => t ≠ ""

/-- A Python value as stored in a dynamically typed attribute or state
dict entry; needed because `_init_model_with_state_dict` passes a float
where the constructor expects a bool. -/
inductive PyVal where
  | bool : Bool → PyVal
  | num : Rat → PyVal
deriving DecidableEq, Repr

/-- The classifier state: configuration fields set by
`TextPairClassifier.__init__` together with the fields of the generic
`DefaultClassifier` base that the source serializes.  `sep` is `none`
when `embed_separately` is true, since the constructor leaves `self.sep`
unset in that case.  `multi_label` has type `PyVal` because
deserialization stores a float in it. -/
structure TextPairClassifier where
  embeddings : DocumentEmbeddings
  label_type : Option String
  embed_separately : Bool
  sep : Option String
  final_embedding_size : Nat
  label_dictionary : Option (List String)
  multi_label : PyVal
  multi_label_threshold : Rat
  weight_dict : Option (List (String × Rat))

/-- Embeds `TextPairClassifier.__init__`: computes
`final_embedding_size = 2 * embedding_length` if embedding separately
else `embedding_length`, stores the label type and the
`embed_separately` flag, and, when not embedding separately, picks the
separator: a single space by default; if the provider is a
transformer-style provider, its tokenizer's separator token surrounded
by spaces when that token is truthy, else the literal `" [SEP] "`.
The base-class fields are stored as passed (modelled from the spec for
the external `DefaultClassifier`); device placement is not modelled. -/
def TextPairClassifier.init
    (embeddings : DocumentEmbeddings) (label_type : Option String)
    (embed_separately : Bool) (label_dictionary : Option (List String))
    (multi_label : PyVal) (multi_label_threshold : Rat)
    (loss_weights : Option (List (String × Rat))) : TextPairClassifier :=
  { embeddings := embeddings
    label_type := label_type
    embed_separately := embed_separately
    sep :=
      if embed_separately then Option.none
      else Option.some
        (if embeddings.is_transformer then
          (if sepTruthy embeddings.sep_token then
            " " ++ embeddings.sep_token.getD "" ++ " "
          else " [SEP] ")
        else " ")
    final_embedding_size :=
      if embed_separately then 2 * embeddings.embedding_length
      else embeddings.embedding_length
    label_dictionary := label_dictionary
    multi_label := multi_label
    multi_label_threshold := multi_label_threshold
    weight_dict := loss_weights }

/-- Embeds `_get_data_points_from_sentence`: the single-element list
holding the pair itself. -/
def TextPairClassifier.get_data_points_from_sentence
    (_c : TextPairClassifier) (sentence : TextPair) : List TextPair :=
  [sentence]

/-- The merged unit built by the non-separate strategy:
`Sentence(first.to_tokenized_string() + sep + second.to_tokenized_string(),
use_tokenizer=False)`, carrying no embeddings yet. -/
def mergedSentence (sep : String) (p : TextPair) : Sentence :=
  { text := p.first.to_tokenized_string ++ sep ++ p.second.to_tokenized_string
    use_tokenizer := false
    embeddings := [] }

/-- The concatenated sentence `_get_embedding_for_data_point` constructs
when `embed_separately` is false, using the classifier's separator. -/
def TextPairClassifier.concatenated_sentence
    (c : TextPairClassifier) (p : TextPair) : Sentence :=
  mergedSentence (c.sep.getD "") p

/-- Embeds `_get_embedding_for_data_point`: when embedding separately,
embed both units of the pair in one batched call and concatenate the
first unit's fetched vector with the second's; otherwise embed the
freshly constructed concatenated sentence and fetch its vector. -/
def TextPairClassifier.get_embedding_for_data_point
    (c : TextPairClassifier) (prediction_data_point : TextPair) : List Int :=
  let embedding_names := c.embeddings.names
  if c.embed_separately then
    (c.embeddings.embed prediction_data_point.first).get_embedding embedding_names ++
      (c.embeddings.embed prediction_data_point.second).get_embedding embedding_names
  else
    (c.embeddings.embed (c.concatenated_sentence prediction_data_point)).get_embedding
      embedding_names

/-- The units `_get_embedding_for_data_point` passes to the provider's
`embed`: the pair's own two units when embedding separately, otherwise
only the freshly constructed concatenated sentence. -/
def TextPairClassifier.units_passed_to_provider
    (c : TextPairClassifier) (p : TextPair) : List Sentence :=
  if c.embed_separately then [p.first, p.second]
  else [c.concatenated_sentence p]

/-- A saved model state as a keyed dictionary: each field is `none` when
the key is absent, mirroring `state.get(...)`. -/
structure ModelState where
  document_embeddings : Option DocumentEmbeddings
  label_dictionary : Option (List String)
  label_type : Option String
  multi_label : Option PyVal
  multi_label_threshold : Option Rat
  weight_dict : Option (List (String × Rat))
  embed_separately : Option Bool

/-- Embeds `_get_state_dict`: serializes the provider's configuration,
the label dictionary, the label type, the multi-label flag, its
threshold, the loss-weight dictionary and the `embed_separately`
flag (base-class weight tensors are persisted separately and are not
modelled). -/
def TextPairClassifier.get_state_dict (c : TextPairClassifier) : ModelState :=
  { document_embeddings := Option.some c.embeddings
    label_dictionary := c.label_dictionary
    label_type := c.label_type
    multi_label := Option.some c.multi_label
    multi_label_threshold := Option.some c.multi_label_threshold
    weight_dict := c.weight_dict
    embed_separately := Option.some c.embed_separately }

/-- Embeds `_init_model_with_state_dict`: reconstructs a classifier by
calling the constructor with `embeddings`, `label_dictionary`,
`label_type`, `loss_weights` and `embed_separately` read from the state;
the value passed as `multi_label` is
`state.get("multi_label_threshold", 0.5)` — the saved threshold, a
float — and no `multi_label_threshold` argument is passed, so the
constructor's default `0.5` is used for the threshold.  Reconstruction
fails (Python raises) when the saved embeddings are absent. -/
def TextPairClassifier.init_model_with_state_dict
    (state : ModelState) : Option TextPairClassifier :=
  match state.document_embeddings with
  | Option.none => Option.none
  | Option.some emb =>
      Option.some (TextPairClassifier.init emb state.label_type
        (state.embed_separately.getD false)
        state.label_dictionary
        (PyVal.num (state.multi_label_threshold.getD (1/2)))
        (1/2)
        state.weight_dict)

/-- Modelled from the spec: a fallible view of the embedding provider,
whose `embed` can raise (provider unavailable, malformed unit, ...); the
error carries the provider's own message. -/
structure DocumentEmbeddingsE where
  names : List String
  embedE : Sentence → Except String Sentence

/-- Embeds the control flow of `_get_embedding_for_data_point` over the
fallible provider: the source wraps no call in a `try`, so an exception
raised by the provider's `embed` propagates unchanged; embedding the two
units of a pair processes the first unit before the second. -/
def get_embedding_for_data_pointE (e : DocumentEmbeddingsE)
    (embed_separately : Bool) (sep : String) (p : TextPair) :
    Except String (List Int) :=
  if embed_separately then
    match e.embedE p.first with
    | Except.error err => Except.error err
    | Except.ok f =>
        match e.embedE p.second with
        | Except.error err => Except.error err
        | Except.ok s =>
            Except.ok (f.get_embedding e.names ++ s.get_embedding e.names)
  else
    match e.embedE (mergedSentence sep p) with
    | Except.error err => Except.error err
    | Except.ok m => Except.ok (m.get_embedding e.names)

/-- One framework callback into the classifier: either
`_get_data_points_from_sentence` or `_get_embedding_for_data_point` on a
given pair. -/
inductive ClassifierCall where
  | dataPoints : TextPair → ClassifierCall
  | embeddingFor : TextPair → ClassifierCall

/-- The observable result of one callback. -/
inductive CallResult where
  | pairs : List TextPair → CallResult
  | vec : List Int → CallResult
deriving DecidableEq

/-- A call viewed as a state transition: the source's two methods assign
no attribute of `self`, so the post-state is the receiver unchanged,
paired with the call's result. -/
def TextPairClassifier.runCall (c : TextPairClassifier) :
    ClassifierCall → TextPairClassifier × CallResult
  | ClassifierCall.dataPoints p =>
      (c, CallResult.pairs (c.get_data_points_from_sentence p))
  | ClassifierCall.embeddingFor p =>
      (c, CallResult.vec (c.get_embedding_for_data_point p))

/-- The classifier state after a sequence of callbacks. -/
def TextPairClassifier.runCalls (c : TextPairClassifier) :
    List ClassifierCall → TextPairClassifier
  | [] => c
  | k :: ks => ((c.runCall k).1).runCalls ks

/-! Helper lemmas. -/

/-- Fetching a well-formed provider's named vectors right after it
embedded a unit yields exactly the vectors it attached to that unit. -/
theorem get_embedding_embed (e : DocumentEmbeddings) (s : Sentence) (h : e.WF) :
    (e.embed s).get_embedding e.names = ((e.attach s.text).map Prod.snd).flatten := by
  unfold DocumentEmbeddings.embed Sentence.get_embedding
  simp only [List.filter_append]
  have h1 : (s.embeddings.filter (fun q => !(e.names.contains q.1))).filter
      (fun q => e.names.contains q.1) = [] := by
    rw [List.filter_eq_nil_iff]
    intro a ha
    have hmem := List.of_mem_filter ha
    simp only [Bool.not_eq_true'] at hmem
    simpa using hmem
  have h2 : (e.attach s.text).filter (fun q => e.names.contains q.1) = e.attach s.text := by
    rw [List.filter_eq_self]
    intro a ha
    have hfst : a.1 ∈ e.names := by
      rw [← (h s.text).1]
      exact List.mem_map_of_mem Prod.fst ha
    simpa using hfst
  rw [h1, h2, List.nil_append]

/-- The fetched vector of a freshly embedded unit has the provider's
announced length. -/
theorem get_embedding_embed_length (e : DocumentEmbeddings) (s : Sentence) (h : e.WF) :
    ((e.embed s).get_embedding e.names).length = e.embedding_length := by
  rw [get_embedding_embed e s h]
  exact (h s.text).2

/-- The two callbacks assign no classifier attribute, so any sequence of
calls leaves the classifier state unchanged. -/
theorem runCalls_eq : ∀ (ks : List ClassifierCall) (c : TextPairClassifier),
    c.runCalls ks = c
  | [], _ => rfl
  | k :: ks, c => by
      cases k <;> exact runCalls_eq ks c

/-- The separator a classifier constructed with `embed_separately =
false` stores is a nonempty string. -/
theorem init_sep_length_pos (emb : DocumentEmbeddings) (lt : Option String)
    (ld : Option (List String)) (ml : PyVal) (mlt : Rat)
    (lw : Option (List (String × Rat))) :
    0 < ((TextPairClassifier.init emb lt false ld ml mlt lw).sep.getD "").length := by
  unfold TextPairClassifier.init
  cases htr : emb.is_transformer with
  | false =>
      simp only [htr, Bool.false_eq_true, if_false, Option.getD_some]
      decide
  | true =>
      cases hst : sepTruthy emb.sep_token with
      | false =>
          simp only [htr, hst, if_true, Bool.false_eq_true, if_false, Option.getD_some]
          decide
      | true =>
          simp only [htr, hst, if_true, Bool.false_eq_true, if_false, Option.getD_some,
            String.length_append]
          have hsp : 0 < " ".length := by decide
          omega

/-! Concrete instances used by witnesses and counterexamples. -/

/-- A concrete non-transformer provider with embedding length 4; it
attaches one vector named "emb" whose first entry is the length of the
unit's text. -/
def embScenario : DocumentEmbeddings :=
  { embedding_length := 4
    names := ["emb"]
    attach := fun t => [("emb", [Int.ofNat t.length, 1, 2, 3])]
    is_transformer := false
    sep_token := Option.none }

/-- The concrete provider is well formed. -/
theorem embScenario_wf : embScenario.WF := fun _ => ⟨rfl, rfl⟩

/-- A concrete transformer-style provider whose tokenizer declares the
separator token "</s>". -/
def embTransformer : DocumentEmbeddings :=
  { embScenario with is_transformer := true, sep_token := Option.some "</s>" }

/-- A concrete transformer-style provider whose tokenizer declares no
separator token. -/
def embTransformerNoSep : DocumentEmbeddings :=
  { embScenario with is_transformer := true, sep_token := Option.none }

/-- The spec's scenario pair. -/
def pairScenario : TextPair :=
  { first := { text := "The cat sat.", use_tokenizer := false, embeddings := [] }
    second := { text := "It was hungry.", use_tokenizer := false, embeddings := [] } }

/-! Claim theorems. -/

/-- A concrete classifier saved with multi-label threshold 7/10, used to
exhibit the deserialization defect. -/
def classifierThreshold710 : TextPairClassifier :=
  TextPairClassifier.init embScenario (Option.some "entailment") false
    (Option.some ["entail", "contradict"]) (PyVal.bool false) (7/10) Option.none

/-- C1: serialize-then-deserialize does NOT reproduce the multi-label
threshold.  A classifier saved with threshold 7/10 is reconstructed with
threshold 1/2 (the constructor default, since `_init_model_with_state_dict`
passes no `multi_label_threshold` argument), and its `multi_label` field
receives the saved threshold 7/10 instead of the saved flag; label type
and `embed_separately` are reproduced.  The code contradicts the spec's
deserialization contract: a slip in the keyword arguments. -/
theorem roundtrip_drops_multi_label_threshold :
    classifierThreshold710.multi_label_threshold = 7/10 ∧
    classifierThreshold710.multi_label = PyVal.bool false ∧
    ∃ c, TextPairClassifier.init_model_with_state_dict
          classifierThreshold710.get_state_dict = Option.some c ∧
      c.label_type = classifierThreshold710.label_type ∧
      c.embed_separately = classifierThreshold710.embed_separately ∧
      c.multi_label_threshold = 1/2 ∧
      c.multi_label_threshold ≠ classifierThreshold710.multi_label_threshold ∧
      c.multi_label = PyVal.num (7/10) := by
  refine ⟨rfl, rfl, _, rfl, rfl, rfl, rfl, ?_, rfl⟩
  show (1/2 : Rat) ≠ 7/10
  norm_num

/-- A concrete classifier over the plain (non-transformer) provider with
the merged-embedding strategy. -/
def classifierPlainMerged : TextPairClassifier :=
  TextPairClassifier.init embScenario (Option.some "entailment") false
    Option.none (PyVal.bool false) (1/2) Option.none

/-- C2 counterexample: the plain provider is not transformer-style and
declares no separator token, yet the merged unit's text for the spec's
scenario pair is joined by a single space, not by " [SEP] ". -/
theorem merged_text_space_for_plain_provider :
    embScenario.is_transformer = false ∧
    embScenario.sep_token = Option.none ∧
    (classifierPlainMerged.concatenated_sentence pairScenario).text =
      "The cat sat. It was hungry." ∧
    (classifierPlainMerged.concatenated_sentence pairScenario).text ≠
      "The cat sat. [SEP] It was hungry." := by
  refine ⟨rfl, rfl, rfl, ?_⟩
  decide

/-- C2 amended: when `embed_separately` is false and the provider is a
transformer-style provider whose tokenizer declares no (or an empty)
separator token, the merged unit's text is
first's text ++ " [SEP] " ++ second's text; a non-transformer provider
instead joins the two texts with a single space. -/
theorem merged_text_sep_literal_fallback (emb : DocumentEmbeddings)
    (lt : Option String) (ld : Option (List String)) (ml : PyVal) (mlt : Rat)
    (lw : Option (List (String × Rat))) (p : TextPair)
    (htr : emb.is_transformer = true) (hst : sepTruthy emb.sep_token = false) :
    ((TextPairClassifier.init emb lt false ld ml mlt lw).concatenated_sentence p).text =
      p.first.text ++ " [SEP] " ++ p.second.text := by
  simp only [TextPairClassifier.concatenated_sentence, TextPairClassifier.init,
    mergedSentence, Sentence.to_tokenized_string, htr, hst, if_true,
    Bool.false_eq_true, if_false, Option.getD_some]

/-- C2 amended, witness: the transformer-style provider without a
separator token on the spec's scenario pair yields exactly the scenario
text. -/
theorem merged_text_sep_literal_fallback_witness :
    embTransformerNoSep.is_transformer = true ∧
    sepTruthy embTransformerNoSep.sep_token = false ∧
    ((TextPairClassifier.init embTransformerNoSep (Option.some "entailment") false
        Option.none (PyVal.bool false) (1/2)
        Option.none).concatenated_sentence pairScenario).text =
      "The cat sat. [SEP] It was hungry." :=
  ⟨rfl, rfl, by
    rw [merged_text_sep_literal_fallback embTransformerNoSep (Option.some "entailment")
      Option.none (PyVal.bool false) (1/2) Option.none pairScenario rfl rfl]
    decide⟩

/-- C5: when `embed_separately` is false and the provider is a
transformer-style provider whose tokenizer declares a (truthy) separator
token t, the merged unit's text is
first's text ++ " " ++ t ++ " " ++ second's text, and the merged unit is
constructed as pre-tokenized (its `use_tokenizer` flag is false). -/
theorem merged_text_declared_sep_token (emb : DocumentEmbeddings)
    (lt : Option String) (ld : Option (List String)) (ml : PyVal) (mlt : Rat)
    (lw : Option (List (String × Rat))) (p : TextPair) (t : String)
    (htr : emb.is_transformer = true) (hst : emb.sep_token = Option.some t)
    (hne : t ≠ "") :
    ((TextPairClassifier.init emb lt false ld ml mlt lw).concatenated_sentence p).text =
      p.first.text ++ " " ++ t ++ " " ++ p.second.text ∧
    ((TextPairClassifier.init emb lt false ld ml mlt
        lw).concatenated_sentence p).use_tokenizer = false := by
  have htt : sepTruthy (Option.some t) = true := by
    simpa [sepTruthy] using hne
  constructor
  · simp only [TextPairClassifier.concatenated_sentence, TextPairClassifier.init,
      mergedSentence, Sentence.to_tokenized_string, htr, hst, htt, if_true,
      Bool.false_eq_true, if_false, Option.getD_some]
    simp [String.append_assoc]
  · rfl

/-- C5 witness: the transformer-style provider declaring "</s>" on the
spec's scenario pair yields the expected merged text, pre-tokenized. -/
theorem merged_text_declared_sep_token_witness :
    embTransformer.is_transformer = true ∧
    embTransformer.sep_token = Option.some "</s>" ∧ "</s>" ≠ "" ∧
    ((TextPairClassifier.init embTransformer (Option.some "entailment") false
        Option.none (PyVal.bool false) (1/2)
        Option.none).concatenated_sentence pairScenario).text =
      "The cat sat. </s> It was hungry." ∧
    ((TextPairClassifier.init embTransformer (Option.some "entailment") false
        Option.none (PyVal.bool false) (1/2)
        Option.none).concatenated_sentence pairScenario).use_tokenizer = false := by
  have h := merged_text_declared_sep_token embTransformer (Option.some "entailment")
    Option.none (PyVal.bool false) (1/2) Option.none pairScenario "</s>" rfl rfl
    (by decide)
  exact ⟨rfl, rfl, by decide, h.1, h.2⟩

/-- C6: `_get_data_points_from_sentence` returns the one-element list
whose only element is the input pair itself. -/
theorem data_points_from_sentence_singleton (c : TextPairClassifier) (p : TextPair) :
    c.get_data_points_from_sentence p = [p] ∧
    (c.get_data_points_from_sentence p).length = 1 :=
  ⟨rfl, rfl⟩

/-- C7: the serialized state holds the provider's configuration, the
label vocabulary, the label type, the multi-label flag, the multi-label
threshold, the per-label loss weights, and the `embed_separately`
flag, each equal to the classifier's corresponding field. -/
theorem state_dict_holds_all_fields (c : TextPairClassifier) :
    c.get_state_dict.document_embeddings = Option.some c.embeddings ∧
    c.get_state_dict.label_dictionary = c.label_dictionary ∧
    c.get_state_dict.label_type = c.label_type ∧
    c.get_state_dict.multi_label = Option.some c.multi_label ∧
    c.get_state_dict.multi_label_threshold = Option.some c.multi_label_threshold ∧
    c.get_state_dict.weight_dict = c.weight_dict ∧
    c.get_state_dict.embed_separately = Option.some c.embed_separately :=
  ⟨rfl, rfl, rfl, rfl, rfl, rfl, rfl⟩

/-- C3: the final representation size configured at construction is
`2 * embedding_length` when embedding separately and `embedding_length`
otherwise, and for a well-formed provider the vector returned by
`_get_embedding_for_data_point` has exactly that length. -/
theorem final_embedding_size_matches_strategy (emb : DocumentEmbeddings)
    (lt : Option String) (es : Bool) (ld : Option (List String)) (ml : PyVal)
    (mlt : Rat) (lw : Option (List (String × Rat))) (p : TextPair) (h : emb.WF) :
    (TextPairClassifier.init emb lt es ld ml mlt lw).final_embedding_size =
      (if es then 2 * emb.embedding_length else emb.embedding_length) ∧
    ((TextPairClassifier.init emb lt es ld ml mlt
        lw).get_embedding_for_data_point p).length =
      (TextPairClassifier.init emb lt es ld ml mlt lw).final_embedding_size := by
  refine ⟨rfl, ?_⟩
  cases es with
  | true =>
      show ((emb.embed p.first).get_embedding emb.names ++
        (emb.embed p.second).get_embedding emb.names).length = 2 * emb.embedding_length
      rw [List.length_append, get_embedding_embed_length emb p.first h,
        get_embedding_embed_length emb p.second h]
      omega
  | false =>
      exact get_embedding_embed_length emb _ h

/-- A concrete classifier over the plain provider with the separate
embedding strategy. -/
def classifierSeparate : TextPairClassifier :=
  TextPairClassifier.init embScenario (Option.some "entailment") true
    Option.none (PyVal.bool false) (1/2) Option.none

/-- C3 witness: with the concrete well-formed provider of embedding
length 4 and the separate strategy, the final size is 8 and the returned
vector for the scenario pair has length 8. -/
theorem final_embedding_size_matches_strategy_witness :
    embScenario.WF ∧
    classifierSeparate.final_embedding_size =
      (if true then 2 * embScenario.embedding_length
       else embScenario.embedding_length) ∧
    (classifierSeparate.get_embedding_for_data_point pairScenario).length =
      classifierSeparate.final_embedding_size :=
  ⟨embScenario_wf,
    final_embedding_size_matches_strategy embScenario (Option.some "entailment") true
      Option.none (PyVal.bool false) (1/2) Option.none pairScenario embScenario_wf⟩

/-- C4: with the separate strategy, the provider embeds the pair's two
units in one batched call, and the returned vector is first's fetched
embedding followed by second's; each part has length `embedding_length`,
so the first `embedding_length` entries equal first's embedding and the
rest equal second's. -/
theorem separate_embedding_concatenates (emb : DocumentEmbeddings)
    (lt : Option String) (ld : Option (List String)) (ml : PyVal) (mlt : Rat)
    (lw : Option (List (String × Rat))) (p : TextPair) (h : emb.WF) :
    emb.embedBatch [p.first, p.second] = [emb.embed p.first, emb.embed p.second] ∧
    (TextPairClassifier.init emb lt true ld ml mlt lw).get_embedding_for_data_point p =
      (emb.embed p.first).get_embedding emb.names ++
        (emb.embed p.second).get_embedding emb.names ∧
    ((emb.embed p.first).get_embedding emb.names).length = emb.embedding_length ∧
    ((emb.embed p.second).get_embedding emb.names).length = emb.embedding_length ∧
    ((TextPairClassifier.init emb lt true ld ml mlt
        lw).get_embedding_for_data_point p).take emb.embedding_length =
      (emb.embed p.first).get_embedding emb.names ∧
    ((TextPairClassifier.init emb lt true ld ml mlt
        lw).get_embedding_for_data_point p).drop emb.embedding_length =
      (emb.embed p.second).get_embedding emb.names := by
  have h1 := get_embedding_embed_length emb p.first h
  have h2 := get_embedding_embed_length emb p.second h
  refine ⟨rfl, rfl, h1, h2, ?_, ?_⟩
  · show ((emb.embed p.first).get_embedding emb.names ++
      (emb.embed p.second).get_embedding emb.names).take emb.embedding_length =
        (emb.embed p.first).get_embedding emb.names
    rw [← h1]
    exact List.take_left _ _
  · show ((emb.embed p.first).get_embedding emb.names ++
      (emb.embed p.second).get_embedding emb.names).drop emb.embedding_length =
        (emb.embed p.second).get_embedding emb.names
    rw [← h1]
    exact List.drop_left _ _

/-- C4 witness: the concrete provider with embedding length 4 on the
scenario pair: batched embedding, concatenation in order, both halves of
length 4 recovered by `take 4` and `drop 4`. -/
theorem separate_embedding_concatenates_witness :
    embScenario.WF ∧
    (embScenario.embedBatch [pairScenario.first, pairScenario.second] =
      [embScenario.embed pairScenario.first, embScenario.embed pairScenario.second] ∧
    classifierSeparate.get_embedding_for_data_point pairScenario =
      (embScenario.embed pairScenario.first).get_embedding embScenario.names ++
        (embScenario.embed pairScenario.second).get_embedding embScenario.names ∧
    ((embScenario.embed pairScenario.first).get_embedding embScenario.names).length =
      embScenario.embedding_length ∧
    ((embScenario.embed pairScenario.second).get_embedding embScenario.names).length =
      embScenario.embedding_length ∧
    (classifierSeparate.get_embedding_for_data_point pairScenario).take
        embScenario.embedding_length =
      (embScenario.embed pairScenario.first).get_embedding embScenario.names ∧
    (classifierSeparate.get_embedding_for_data_point pairScenario).drop
        embScenario.embedding_length =
      (embScenario.embed pairScenario.second).get_embedding embScenario.names) :=
  ⟨embScenario_wf,
    separate_embedding_concatenates embScenario (Option.some "entailment")
      Option.none (PyVal.bool false) (1/2) Option.none pairScenario embScenario_wf⟩

/-- C8: over the fallible provider, `_get_embedding_for_data_point`
succeeds exactly when every provider `embed` call it makes succeeds, and
any provider error is returned unchanged; the operation raises nothing
of its own. -/
theorem embedding_failure_propagates (e : DocumentEmbeddingsE) (es : Bool)
    (sep : String) (p : TextPair) :
    ((get_embedding_for_data_pointE e es sep p).isOk =
      (if es then (e.embedE p.first).isOk && (e.embedE p.second).isOk
       else (e.embedE (mergedSentence sep p)).isOk)) ∧
    ∀ err, (get_embedding_for_data_pointE e es sep p = Except.error err ↔
      (if es then
        e.embedE p.first = Except.error err ∨
          ((e.embedE p.first).isOk = true ∧ e.embedE p.second = Except.error err)
       else e.embedE (mergedSentence sep p) = Except.error err)) := by
  cases es with
  | true =>
      cases hf : e.embedE p.first <;> cases hs : e.embedE p.second <;>
        simp [get_embedding_for_data_pointE, Except.isOk, Except.toBool, hf, hs]
  | false =>
      cases hm : e.embedE (mergedSentence sep p) <;>
        simp [get_embedding_for_data_pointE, Except.isOk, Except.toBool, hm]

/-- C9: the classifier's configuration (label type, `embed_separately`
flag, separator) is unchanged by any sequence of callbacks, and every
callback's result is the same whether or not other calls preceded it. -/
theorem classifier_stateless_across_calls (c : TextPairClassifier)
    (ks : List ClassifierCall) :
    (c.runCalls ks).label_type = c.label_type ∧
    (c.runCalls ks).embed_separately = c.embed_separately ∧
    (c.runCalls ks).sep = c.sep ∧
    ∀ k, ((c.runCalls ks).runCall k).2 = (c.runCall k).2 := by
  rw [runCalls_eq]
  exact ⟨rfl, rfl, rfl, fun _ => rfl⟩

/-- C10: with the merged strategy, the only unit passed to the
provider's `embed` is the freshly constructed concatenated sentence,
which differs from both of the pair's own units (its text is strictly
longer than either, the separator being nonempty), so the classifier
attaches no embeddings to the pair's original units. -/
theorem merged_strategy_spares_original_units (emb : DocumentEmbeddings)
    (lt : Option String) (ld : Option (List String)) (ml : PyVal) (mlt : Rat)
    (lw : Option (List (String × Rat))) (p : TextPair) :
    (TextPairClassifier.init emb lt false ld ml mlt lw).units_passed_to_provider p =
      [(TextPairClassifier.init emb lt false ld ml mlt lw).concatenated_sentence p] ∧
    (TextPairClassifier.init emb lt false ld ml mlt lw).concatenated_sentence p ≠
      p.first ∧
    (TextPairClassifier.init emb lt false ld ml mlt lw).concatenated_sentence p ≠
      p.second := by
  have hpos := init_sep_length_pos emb lt ld ml mlt lw
  refine ⟨rfl, ?_, ?_⟩
  · intro hEq
    have hlen := congrArg (fun s => s.text.length) hEq
    simp only [TextPairClassifier.concatenated_sentence, mergedSentence,
      Sentence.to_tokenized_string, String.length_append] at hlen
    omega
  · intro hEq
    have hlen := congrArg (fun s => s.text.length) hEq
    simp only [TextPairClassifier.concatenated_sentence, mergedSentence,
      Sentence.to_tokenized_string, String.length_append] at hlen
    omega

/-- C10 witness: for the plain provider and the scenario pair, the only
unit embedded is the concatenated sentence, distinct from both original
units. -/
theorem merged_strategy_spares_original_units_witness :
    classifierPlainMerged.units_passed_to_provider pairScenario =
      [classifierPlainMerged.concatenated_sentence pairScenario] ∧
    classifierPlainMerged.concatenated_sentence pairScenario ≠ pairScenario.first ∧
    classifierPlainMerged.concatenated_sentence pairScenario ≠ pairScenario.second :=
  merged_strategy_spares_original_units embScenario (Option.some "entailment")
    Option.none (PyVal.bool false) (1/2) Option.none pairScenario

end PairwiseClassification
